import Mathlib

/-!
Shallow embedding of the captcha-solver browser extension
(content.js, js/captchaSolverApi.js, background.js).

The DOM is modelled as a flat list of elements in document order; each
element carries the attributes the selectors inspect, its bounding
rectangle's top-left corner in viewport coordinates, and the identity of
its nearest enclosing form (HTML forbids nested forms, so the descendants
of a form are exactly the elements whose nearest enclosing form it is).
Coordinates are integers; the JS comparator returns
sqrt(dxA^2+dyA^2) - sqrt(dxB^2+dyB^2), whose sign equals the sign of the
difference of the squared distances, so the embedding sorts by squared
Euclidean distance.
-/

/-- Substring test on character lists: does `hay` contain `pat` as a
contiguous run?  Models the CSS `[attr*="captcha"]` substring operator. -/
def listContains (pat : List Char) : List Char → Bool
  | [] => pat.isEmpty
  | c :: cs => List.isPrefixOf pat (c :: cs) || listContains pat cs

/-- `strContains hay pat = true` iff `pat` occurs as a contiguous substring
of `hay` (case-sensitive, as CSS `*=` is). -/
def strContains (hay pat : String) : Bool :=
  listContains pat.toList hay.toList

/-- A DOM element, reduced to the data the extension inspects.  Absent
attributes are `none`; `[attr*=...]` never matches an absent attribute. -/
structure Elem where
  tag : String
  title : Option String
  src : Option String
  alt : Option String
  id : Option String
  className : Option String
  ariaLabel : Option String
  nameAttr : Option String
  placeholder : Option String
  typeAttr : Option String
  maxLengthAttr : Option String
  patternAttr : Option String
  /-- bounding rectangle top-left x in viewport coordinates -/
  x : Int
  /-- bounding rectangle top-left y in viewport coordinates -/
  y : Int
  /-- identity of the nearest enclosing form, `none` when no form encloses
  the element -/
  formId : Option Nat
  deriving DecidableEq, Repr

/-- A page document: its elements in document order (the order
`querySelectorAll` returns). -/
structure Doc where
  elems : List Elem
  deriving DecidableEq, Repr

/-- `[a*="captcha"]` on an optional attribute. -/
def hasCaptchaSub (a : Option String) : Bool :=
  match a with
  | some s => strContains s "captcha"
  | none => false

/-- `img[title*="captcha"]` -/
def selImgTitle (e : Elem) : Bool := e.tag == "img" && hasCaptchaSub e.title
/-- `img[src*="captcha"]` -/
def selImgSrc (e : Elem) : Bool := e.tag == "img" && hasCaptchaSub e.src
/-- `img[alt*="captcha"]` -/
def selImgAlt (e : Elem) : Bool := e.tag == "img" && hasCaptchaSub e.alt
/-- `img[id*="captcha"]` -/
def selImgId (e : Elem) : Bool := e.tag == "img" && hasCaptchaSub e.id
/-- `img[class*="captcha"]` -/
def selImgClass (e : Elem) : Bool := e.tag == "img" && hasCaptchaSub e.className
/-- `img[aria-label*="captcha"]` -/
def selImgAria (e : Elem) : Bool := e.tag == "img" && hasCaptchaSub e.ariaLabel

/-- The `captchaImageSelectors` array of content.js, in source order. -/
def captchaImageSelectors : List (Elem → Bool) :=
  [selImgTitle, selImgSrc, selImgAlt, selImgId, selImgClass, selImgAria]

/-- `input[id*="captcha"]` -/
def selInpId (e : Elem) : Bool := e.tag == "input" && hasCaptchaSub e.id
/-- `input[name*="captcha"]` -/
def selInpName (e : Elem) : Bool := e.tag == "input" && hasCaptchaSub e.nameAttr
/-- `input[class*="captcha"]` -/
def selInpClass (e : Elem) : Bool := e.tag == "input" && hasCaptchaSub e.className
/-- `input[placeholder*="captcha"]` -/
def selInpPlaceholder (e : Elem) : Bool := e.tag == "input" && hasCaptchaSub e.placeholder
/-- `input[aria-label*="captcha"]` -/
def selInpAria (e : Elem) : Bool := e.tag == "input" && hasCaptchaSub e.ariaLabel
/-- `input[type="text"][maxlength="6"]` (exact attribute match) -/
def selInpMax6 (e : Elem) : Bool :=
  e.tag == "input" && e.typeAttr == some "text" && e.maxLengthAttr == some "6"
/-- `input[type="text"][pattern="[a-zA-Z0-9]{4,6}"]` (exact attribute match) -/
def selInpPattern (e : Elem) : Bool :=
  e.tag == "input" && e.typeAttr == some "text" &&
    e.patternAttr == some "[a-zA-Z0-9]\x7b4,6\x7d"

/-- The `captchaInputSelectors` array of content.js, in source order. -/
def captchaInputSelectors : List (Elem → Bool) :=
  [selInpId, selInpName, selInpClass, selInpPlaceholder, selInpAria,
   selInpMax6, selInpPattern]

/-- `document.querySelector(sel)`: the first element in document order that
matches, or `none`. -/
def querySelector (doc : Doc) (sel : Elem → Bool) : Option Elem :=
  (doc.elems.filter sel).head?

/-- The loop of content.js lines 76-79: try each image selector with
`document.querySelector` and stop at the first that yields a match. -/
def imageLoop (doc : Doc) : List (Elem → Bool) → Option Elem
  | [] => none
  | sel :: rest =>
    match querySelector doc sel with
    | some e => some e
    | none => imageLoop doc rest

/-- The image half of `findCaptcha`. -/
def findCaptchaImage (doc : Doc) : Option Elem :=
  imageLoop doc captchaImageSelectors

/-- `captchaImage.closest('form') || document.body` followed by
`parent.querySelectorAll`: the elements of the search scope in document
order. -/
def scopeOf (doc : Doc) (img : Elem) : List Elem :=
  match img.formId with
  | some f => doc.elems.filter (fun e => e.formId == some f)
  | none => doc.elems

/-- Squared Euclidean distance between the bounding-rect top-left corners;
the JS comparator compares `Math.sqrt` of these, and `sqrt` is strictly
monotone on nonnegative reals, so comparing the squares is equivalent. -/
def distSq (a b : Elem) : Int :=
  (a.x - b.x) * (a.x - b.x) + (a.y - b.y) * (a.y - b.y)

/-- Stable insertion of `x` into a list already sorted by `key`: `x` goes
before the first element whose key is not smaller.  Elements already in the
list with an equal key stay in front only if they precede `x` in the
original list (they do not: `sortByKey` inserts from the right). -/
def insertByKey (key : α → Int) (x : α) : List α → List α
  | [] => [x]
  | y :: ys => if key x ≤ key y then x :: y :: ys else y :: insertByKey key x ys

/-- Stable sort by an integer key, modelling JS `Array.prototype.sort`
(stable per the ECMAScript spec) with the distance comparator of
content.js lines 92-99. -/
def sortByKey (key : α → Int) : List α → List α
  | [] => []
  | x :: xs => insertByKey key x (sortByKey key xs)

/-- The input-selector loop of content.js lines 89-104: for each selector,
collect the matches in the scope, sort them by distance to the image, and
stop at the first selector with at least one match, taking the nearest. -/
def inputLoop (img : Elem) (scope : List Elem) : List (Elem → Bool) → Option Elem
  | [] => none
  | sel :: rest =>
    match sortByKey (distSq img) (scope.filter sel) with
    | [] => inputLoop img scope rest
    | i :: _ => some i

/-- The result of `findCaptcha`: a paired image and input. -/
structure Candidate where
  image : Elem
  inputElem : Elem
  deriving DecidableEq, Repr

/-- `findCaptcha` of content.js: locate a captcha image, then the nearest
matching input in the image's form (or the whole body); `none` models the
`return null` paths. -/
def findCaptcha (doc : Doc) : Option Candidate :=
  match findCaptchaImage doc with
  | none => none
  | some img =>
    match inputLoop img (scopeOf doc img) captchaInputSelectors with
    | none => none
    | some inp => some ⟨img, inp⟩

/-!
Image Extractor (`getImageDataUrl`, content.js lines 14-46).

The browser effects are modelled by an environment recording: whether the
canvas 2D context is available, whether `canvas.toDataURL` succeeds or
throws a cross-origin taint error, the outcome of the fallback
`fetch(img.src)` (a network rejection, or a response with a status code
and a body), and whether the `FileReader` read fails.  Note that the
source never inspects `response.ok` or the status on the fallback path.
-/

/-- Outcome of `canvas.toDataURL('image/png')`. -/
inductive CanvasResult where
  | ok (dataUrl : String)
  | taintError
  deriving DecidableEq, Repr

/-- Outcome of the fallback `fetch(img.src)`: the promise rejects
(network error) or resolves with a response carrying a status code and a
body. -/
inductive FetchResult where
  | networkError (msg : String)
  | response (status : Nat) (body : String)
  deriving DecidableEq, Repr

/-- The browser-side effects `getImageDataUrl` can observe. -/
structure ExtractEnv where
  ctxAvailable : Bool
  canvas : CanvasResult
  fetchImg : FetchResult
  readerFails : Bool
  deriving DecidableEq, Repr

/-- Result of `getImageDataUrl`: the promise resolves with a data URL or
rejects with an error message. -/
inductive ExtractResult where
  | ok (dataUrl : String)
  | err (msg : String)
  deriving DecidableEq, Repr

/-- `FileReader.readAsDataURL` on the fetched blob: re-encodes the body as
a data URL. -/
def encodeBlobAsDataUrl (body : String) : String :=
  "data:;base64," ++ body

/-- `getImageDataUrl` of content.js.  No context: reject at once.
`toDataURL` succeeds: resolve.  `toDataURL` throws (cross-origin taint):
fetch the image URL; a network rejection propagates via `.catch(reject)`;
a response — of any status, the code never checks it — has its body read
as a data URL, rejecting only if the reader errors. -/
def getImageDataUrl (env : ExtractEnv) : ExtractResult :=
  if env.ctxAvailable = false then
    ExtractResult.err "Could not get 2D context from canvas."
  else
    match env.canvas with
    | CanvasResult.ok u => ExtractResult.ok u
    | CanvasResult.taintError =>
      match env.fetchImg with
      | FetchResult.networkError msg => ExtractResult.err msg
      | FetchResult.response _ body =>
        if env.readerFails then ExtractResult.err "FileReader error"
        else ExtractResult.ok (encodeBlobAsDataUrl body)

/-!
Solver Client (`solveCaptcha`, js/captchaSolverApi.js lines 57-91).

The HTTP exchange is modelled by a `FetchOutcome` oracle.  The response
body as seen through `response.json()` is: a parse rejection, the JSON
value `null` (parses fine, but property access on it throws), or an
object whose `data` and `message` fields — the only ones the code reads —
are optional strings.  JS truthiness of a string is non-emptiness.
-/

/-- The captcha solver configuration record `{apiUrl, apiKey}`. -/
structure SolverConfig where
  apiUrl : String
  apiKey : String
  deriving DecidableEq, Repr

/-- The default configuration `DEFAULT_SOLVER_CONFIG`. -/
def DEFAULT_SOLVER_CONFIG : SolverConfig :=
  ⟨"http://localhost:8000/ocr", ""⟩

/-- What `response.json()` yields. -/
inductive BodyParse where
  /-- the body is not valid JSON: `response.json()` rejects -/
  | parseError
  /-- the body is the JSON literal `null` -/
  | jsonNull
  /-- a JSON object; only the string fields `data` and `message` are kept -/
  | json (dataField : Option String) (messageField : Option String)
  deriving DecidableEq, Repr

/-- Outcome of `fetch(apiUrl, ...)`: a network rejection, or an HTTP
response with its `ok` flag (status in 200-299), `statusText`, and parsed
body. -/
inductive FetchOutcome where
  | networkError (msg : String)
  | got (ok : Bool) (statusText : String) (body : BodyParse)
  deriving DecidableEq, Repr

/-- Result of `solveCaptcha`: resolves with the solved text or rejects
with an error message. -/
inductive SolveResult where
  | ok (text : String)
  | err (msg : String)
  deriving DecidableEq, Repr

/-- `errorData.message || 'Unknown error'` where `errorData` is the parsed
body, or `{message: response.statusText}` when the parse failed.  A `null`
body makes `errorData.message` throw a TypeError. -/
def errorMessageOf (statusText : String) (body : BodyParse) : SolveResult :=
  match body with
  | BodyParse.parseError =>
    SolveResult.err ("Captcha solver API error: " ++
      (if statusText = "" then "Unknown error" else statusText))
  | BodyParse.jsonNull =>
    SolveResult.err "TypeError: cannot read properties of null"
  | BodyParse.json _ m =>
    match m with
    | some msg =>
      SolveResult.err ("Captcha solver API error: " ++
        (if msg = "" then "Unknown error" else msg))
    | none => SolveResult.err ("Captcha solver API error: " ++ "Unknown error")

/-- `solveCaptcha` of js/captchaSolverApi.js, with the stored configuration
(read by `getSolverConfig`) and the network as explicit inputs.  The second
component records whether the HTTP request was issued.  An empty `apiUrl`
throws before any network call; a non-ok response produces the error
message above; an ok response must parse to an object whose `data` field
is truthy (JS: a non-empty string), else a "no valid solution" error. -/
def solveCaptcha (config : SolverConfig) (net : FetchOutcome) :
    SolveResult × Bool :=
  if config.apiUrl = "" then
    (SolveResult.err "Captcha solver API URL is not configured.", false)
  else
    match net with
    | FetchOutcome.networkError msg => (SolveResult.err msg, true)
    | FetchOutcome.got ok statusText body =>
      if ok = false then
        (errorMessageOf statusText body, true)
      else
        match body with
        | BodyParse.parseError =>
          (SolveResult.err "SyntaxError: JSON parse failed", true)
        | BodyParse.jsonNull =>
          (SolveResult.err "Captcha solver API did not return a valid solution.",
           true)
        | BodyParse.json d _ =>
          match d with
          | some s =>
            if s = "" then
              (SolveResult.err
                "Captcha solver API did not return a valid solution.", true)
            else (SolveResult.ok s, true)
          | none =>
            (SolveResult.err
              "Captcha solver API did not return a valid solution.", true)

/-!
Content-script fill logic (`runCaptchaBreaker`, content.js lines 117-149)
and the background relay (background.js lines 25-43): the background maps a
resolved `solveCaptcha` to `{solution}` and a rejection to `{error}`; the
content script fills the input and dispatches `input` and `change` events
only when the reply carries a truthy (non-empty) `solution`.
-/

/-- The reply to the `solveCaptcha` message: `{solution: string}` or
`{error: string}`; a field the reply does not carry is `none`
(JS `undefined`). -/
structure Reply where
  solution : Option String
  errField : Option String
  deriving DecidableEq, Repr

/-- What happens to the detected input element: the value written to it
(`none` = left unchanged) and the events dispatched on it, in order. -/
structure FillEffect where
  valueSet : Option String
  eventsDispatched : List String
  deriving DecidableEq, Repr

/-- Content.js lines 134-142: `if (response && response.solution)` — a
string is truthy iff non-empty — set the value and dispatch `input` then
`change`; any other reply (missing, error, empty solution) touches
nothing. -/
def handleSolveResponse (response : Option Reply) : FillEffect :=
  match response with
  | none => ⟨none, []⟩
  | some r =>
    match r.solution with
    | some s =>
      if s = "" then ⟨none, []⟩
      else ⟨some s, ["input", "change"]⟩
    | none => ⟨none, []⟩

/-- The background listener: resolve → `{solution}`, reject →
`{error: message}`. -/
def backgroundReply (res : SolveResult) : Reply :=
  match res with
  | SolveResult.ok s => ⟨some s, none⟩
  | SolveResult.err m => ⟨none, some m⟩

/-- `runCaptchaBreaker`: detect, extract, solve via the background, fill.
Returns `none` when no candidate was found, otherwise the detected input
element and the effect applied to it (an extraction error is caught and
applies no effect). -/
def runCaptchaBreaker (doc : Doc) (env : ExtractEnv) (config : SolverConfig)
    (net : FetchOutcome) : Option (Elem × FillEffect) :=
  match findCaptcha doc with
  | none => none
  | some c =>
    match getImageDataUrl env with
    | ExtractResult.err _ => some (c.inputElem, ⟨none, []⟩)
    | ExtractResult.ok _ =>
      some (c.inputElem,
        handleSolveResponse (some (backgroundReply (solveCaptcha config net).1)))

/-- Does the extraction promise reject? -/
def isExtractErr : ExtractResult → Bool
  | ExtractResult.ok _ => false
  | ExtractResult.err _ => true

/-!
Concrete elements and pages on which the development is evaluated.
-/

/-- An element with every attribute absent, at the viewport origin,
enclosed by no form. -/
def blankElem : Elem :=
  { tag := "div", title := none, src := none, alt := none, id := none,
    className := none, ariaLabel := none, nameAttr := none,
    placeholder := none, typeAttr := none, maxLengthAttr := none,
    patternAttr := none, x := 0, y := 0, formId := none }

/-- An image whose source URL contains "captcha": it matches the second
image selector and no earlier one. -/
def imgBySrc : Elem :=
  { blankElem with tag := "img", src := some "https://example.test/captcha.png" }

/-- An input whose id contains "captcha", far from the image. -/
def inputFar : Elem :=
  { blankElem with
    tag := "input", id := some "captcha-code-far", x := 100, y := 100 }

/-- An input whose id contains "captcha", near the image. -/
def inputNear : Elem :=
  { blankElem with
    tag := "input", id := some "captcha-code-near", x := 3, y := 4 }

/-- A text input matching none of the input selectors. -/
def plainInput : Elem :=
  { blankElem with tag := "input", typeAttr := some "text" }

/-- A page holding the image and two candidate inputs, the nearer one
later in document order. -/
def pageTwoInputs : Doc := ⟨[imgBySrc, inputFar, inputNear]⟩

/-- A page with no captcha image at all. -/
def pageNoImage : Doc := ⟨[plainInput]⟩

/-- A successful extraction environment. -/
def extractEnvOk : ExtractEnv :=
  ⟨true, CanvasResult.ok "data:image/png;base64,AAA",
   FetchResult.response 200 "", false⟩

/-- A solver response: HTTP 200 with body whose data field is "AB12". -/
def netOkAB12 : FetchOutcome :=
  FetchOutcome.got true "OK" (BodyParse.json (some "AB12") none)

/-!
General lemmas about the embedding's building blocks.
-/

/-- `insertByKey` never returns the empty list. -/
theorem insertByKey_ne_nil (key : α → Int) (x : α) (l : List α) :
    insertByKey key x l ≠ [] := by
  cases l with
  | nil => simp [insertByKey]
  | cons y ys =>
    simp only [insertByKey]
    split <;> simp

/-- The head of the stable sort is an element of the list that attains the
minimum key, and everything strictly before its occurrence has a strictly
larger key (so ties resolve to the first occurrence in the input order). -/
theorem head_sortByKey (key : α → Int) :
    ∀ (l : List α) (i : α), (sortByKey key l).head? = some i →
      ∃ pre post, l = pre ++ i :: post ∧
        (∀ j ∈ l, key i ≤ key j) ∧ (∀ j ∈ pre, key i < key j) := by
  intro l
  induction l with
  | nil => intro i h; simp [sortByKey] at h
  | cons x xs ih =>
    intro i h
    simp only [sortByKey] at h
    cases hs : sortByKey key xs with
    | nil =>
      rw [hs] at h
      simp only [insertByKey, List.head?] at h
      have hxs : xs = [] := by
        cases xs with
        | nil => rfl
        | cons a as =>
          exact absurd hs (by simp only [sortByKey]; exact insertByKey_ne_nil key a _)
      subst hxs
      refine ⟨[], [], ?_, ?_, ?_⟩
      · simp at h; simp [h]
      · intro j hj
        simp at h hj
        simp [h, hj]
      · intro j hj; simp at hj
    | cons y ys =>
      rw [hs] at h
      obtain ⟨pre', post', hdec, hmin, hstrict⟩ := ih y (by rw [hs]; rfl)
      simp only [insertByKey] at h
      by_cases hle : key x ≤ key y
      · rw [if_pos hle] at h
        simp only [List.head?, Option.some.injEq] at h
        subst h
        refine ⟨[], xs, rfl, ?_, ?_⟩
        · intro j hj
          rcases List.mem_cons.mp hj with hj | hj
          · subst hj; exact le_refl _
          · exact le_trans hle (hmin j hj)
        · intro j hj; simp at hj
      · rw [if_neg hle] at h
        simp only [List.head?, Option.some.injEq] at h
        subst h
        have hlt : key y < key x := lt_of_not_le hle
        refine ⟨x :: pre', post', by rw [hdec, List.cons_append], ?_, ?_⟩
        · intro j hj
          rcases List.mem_cons.mp hj with hj | hj
          · subst hj; exact le_of_lt hlt
          · exact hmin j hj
        · intro j hj
          rcases List.mem_cons.mp hj with hj | hj
          · subst hj; exact hlt
          · exact hstrict j hj

/-- The head of a filtered list is the first element of the original list
satisfying the predicate: everything before its occurrence fails the
predicate. -/
theorem head_filter (p : α → Bool) :
    ∀ (l : List α) (e : α), (l.filter p).head? = some e →
      ∃ pre post, l = pre ++ e :: post ∧ p e = true ∧
        ∀ j ∈ pre, p j = false := by
  intro l
  induction l with
  | nil => intro e h; simp at h
  | cons x xs ih =>
    intro e h
    by_cases hpx : p x = true
    · rw [List.filter_cons_of_pos hpx] at h
      simp only [List.head?, Option.some.injEq] at h
      subst h
      exact ⟨[], xs, rfl, hpx, by intro j hj; simp at hj⟩
    · rw [List.filter_cons_of_neg hpx] at h
      obtain ⟨pre', post', hdec, hpe, hpre⟩ := ih e h
      refine ⟨x :: pre', post', by rw [hdec, List.cons_append], hpe, ?_⟩
      intro j hj
      rcases List.mem_cons.mp hj with hj | hj
      · subst hj; exact Bool.eq_false_iff.mpr hpx
      · exact hpre j hj

/-- If every selector strictly before index `k` yields no match and the
selector at `k` yields one, the image loop returns that selector's
`querySelector` result. -/
theorem imageLoop_at (doc : Doc) :
    ∀ (sels : List (Elem → Bool)) (k : Nat) (hk : k < sels.length),
      (∀ j (hj : j < k), querySelector doc (sels.get ⟨j, Nat.lt_trans hj hk⟩) = none) →
      (∀ e, querySelector doc (sels.get ⟨k, hk⟩) = some e →
        imageLoop doc sels = some e) := by
  intro sels
  induction sels with
  | nil => intro k hk; simp at hk
  | cons s rest ih =>
    intro k hk hprev e hcur
    cases k with
    | zero =>
      simp only [List.get] at hcur
      simp only [imageLoop, hcur]
    | succ k' =>
      have h0 : querySelector doc s = none := hprev 0 (Nat.succ_pos k')
      simp only [imageLoop, h0]
      exact ih k' (Nat.lt_of_succ_lt_succ hk)
        (fun j hj => hprev (j + 1) (Nat.succ_lt_succ hj)) e hcur

/-- If every input selector strictly before index `k` yields no match in
the scope and the selector at `k` yields at least one, the input loop
returns the head of the distance-sorted matches of selector `k`. -/
theorem inputLoop_at (img : Elem) (scope : List Elem) :
    ∀ (sels : List (Elem → Bool)) (k : Nat) (hk : k < sels.length),
      (∀ j (hj : j < k), scope.filter (sels.get ⟨j, Nat.lt_trans hj hk⟩) = []) →
      scope.filter (sels.get ⟨k, hk⟩) ≠ [] →
      inputLoop img scope sels =
        (sortByKey (distSq img) (scope.filter (sels.get ⟨k, hk⟩))).head? := by
  intro sels
  induction sels with
  | nil => intro k hk; simp at hk
  | cons s rest ih =>
    intro k hk hprev hcur
    cases k with
    | zero =>
      simp only [List.get] at hcur ⊢
      simp only [inputLoop]
      cases hs : sortByKey (distSq img) (scope.filter s) with
      | nil =>
        exfalso
        apply hcur
        cases hf : scope.filter s with
        | nil => rfl
        | cons a as =>
          rw [hf] at hs
          exact absurd hs (by simp only [sortByKey]; exact insertByKey_ne_nil _ a _)
      | cons i rest' => simp [hs]
    | succ k' =>
      have h0 : scope.filter s = [] := hprev 0 (Nat.succ_pos k')
      simp only [inputLoop, h0, sortByKey]
      exact ih k' (Nat.lt_of_succ_lt_succ hk)
        (fun j hj => hprev (j + 1) (Nat.succ_lt_succ hj)) hcur

/-- A resolved `solveCaptcha` never carries the empty string: the JS
truthiness check `!data.data` rejects it. -/
theorem solveCaptcha_ok_ne_empty (config : SolverConfig) (net : FetchOutcome)
    (s : String) (h : (solveCaptcha config net).1 = SolveResult.ok s) :
    s ≠ "" := by
  unfold solveCaptcha at h
  by_cases hurl : config.apiUrl = ""
  · rw [if_pos hurl] at h; simp at h
  · rw [if_neg hurl] at h
    cases net with
    | networkError m => simp at h
    | got ok statusText body =>
      simp only at h
      by_cases hok : ok = false
      · rw [if_pos hok] at h
        cases body <;> simp [errorMessageOf] at h
        split at h <;> simp_all
      · rw [if_neg hok] at h
        cases body with
        | parseError => simp at h
        | jsonNull => simp at h
        | json d m =>
          cases d with
          | none => simp at h
          | some t =>
            simp only at h
            by_cases ht : t = ""
            · rw [if_pos ht] at h; simp at h
            · rw [if_neg ht] at h
              simp only [Prod.fst, SolveResult.ok.injEq] at h
              subst h; exact ht

/-- If every image selector yields no match, the image loop yields none. -/
theorem imageLoop_none (doc : Doc) :
    ∀ (sels : List (Elem → Bool)),
      (∀ sel ∈ sels, querySelector doc sel = none) →
      imageLoop doc sels = none := by
  intro sels
  induction sels with
  | nil => intro _; rfl
  | cons s rest ih =>
    intro h
    simp only [imageLoop, h s (List.mem_cons_self s rest)]
    exact ih (fun sel hs => h sel (List.mem_cons_of_mem s hs))

/-- `isPrefixOf` is reflexive (with the lawful `BEq` on `Char`). -/
theorem isPrefixOf_self (l : List Char) : List.isPrefixOf l l = true := by
  induction l with
  | nil => rfl
  | cons c cs ih => simp [List.isPrefixOf, ih]

/-- The empty pattern occurs in every character list. -/
theorem listContains_nil (l : List Char) : listContains [] l = true := by
  induction l with
  | nil => rfl
  | cons c cs ih => simp [listContains, List.isPrefixOf]

/-- A pattern occurs in any list the pattern ends. -/
theorem listContains_append (pre pat : List Char) :
    listContains pat (pre ++ pat) = true := by
  induction pre with
  | nil =>
    cases pat with
    | nil => rfl
    | cons c cs =>
      simp only [List.nil_append, listContains]
      rw [isPrefixOf_self]
      simp
  | cons c cs ih =>
    simp only [List.cons_append, listContains, List.append_eq, ih, Bool.or_true]

/-- Every string contains the empty string. -/
theorem strContains_empty (s : String) : strContains s "" = true :=
  listContains_nil s.toList

/-- `a ++ b` contains `b` as a substring. -/
theorem strContains_append_self (a b : String) : strContains (a ++ b) b = true := by
  unfold strContains
  have h : (a ++ b).toList = a.toList ++ b.toList := String.data_append a b
  rw [h]
  exact listContains_append a.toList b.toList

/-- Evaluation of `solveCaptcha` on a non-ok response: the error message
is built by `errorMessageOf`, after the request was issued. -/
theorem solveCaptcha_not_ok (config : SolverConfig) (statusText : String)
    (body : BodyParse) (hurl : config.apiUrl ≠ "") :
    solveCaptcha config (FetchOutcome.got false statusText body)
      = (errorMessageOf statusText body, true) := by
  unfold solveCaptcha
  rw [if_neg hurl]
  rfl

/-- C1: for every found captcha image and the first input selector (in the
fixed order) that yields at least one match within the scope of the
image's nearest enclosing form (or the whole document when no form
encloses it), `findCaptcha` pairs the image with the match whose Euclidean
distance — between bounding-rect top-left corners in viewport
coordinates — to the image is minimal, ties resolved to the match that
comes first in query order (everything before the selected match in the
query is strictly farther). -/
theorem nearest_input_selected (doc : Doc) (img : Elem) (k : Nat)
    (hk : k < captchaInputSelectors.length)
    (himg : findCaptchaImage doc = some img)
    (hne : (scopeOf doc img).filter (captchaInputSelectors.get ⟨k, hk⟩) ≠ [])
    (hprev : ∀ j (hj : j < k),
      (scopeOf doc img).filter
        (captchaInputSelectors.get ⟨j, Nat.lt_trans hj hk⟩) = []) :
    ∃ i pre post,
      findCaptcha doc = some ⟨img, i⟩ ∧
      (scopeOf doc img).filter (captchaInputSelectors.get ⟨k, hk⟩)
        = pre ++ i :: post ∧
      (∀ j ∈ (scopeOf doc img).filter (captchaInputSelectors.get ⟨k, hk⟩),
        distSq img i ≤ distSq img j) ∧
      (∀ j ∈ pre, distSq img i < distSq img j) := by
  have hloop := inputLoop_at img (scopeOf doc img) captchaInputSelectors k hk hprev hne
  cases hhead : (sortByKey (distSq img)
      ((scopeOf doc img).filter (captchaInputSelectors.get ⟨k, hk⟩))).head? with
  | none =>
    exfalso
    cases hf : (scopeOf doc img).filter (captchaInputSelectors.get ⟨k, hk⟩) with
    | nil => exact hne hf
    | cons a as =>
      rw [hf] at hhead
      simp only [sortByKey] at hhead
      cases hI : insertByKey (distSq img) a (sortByKey (distSq img) as) with
      | nil => exact insertByKey_ne_nil _ a _ hI
      | cons b bs => rw [hI] at hhead; simp at hhead
  | some i =>
    obtain ⟨pre, post, hdec, hmin, hstrict⟩ := head_sortByKey (distSq img) _ i hhead
    refine ⟨i, pre, post, ?_, hdec, hmin, hstrict⟩
    simp only [findCaptcha, himg, hloop, hhead]

/-- Witness for C1: on a concrete page whose image is enclosed by no form
and whose two id-matching inputs lie at distances 5 and about 141 from the
image, the detector picks the nearer input. -/
theorem nearest_input_selected_witness :
    ∃ i pre post,
      findCaptcha pageTwoInputs = some ⟨imgBySrc, i⟩ ∧
      (scopeOf pageTwoInputs imgBySrc).filter
        (captchaInputSelectors.get ⟨0, by decide⟩) = pre ++ i :: post ∧
      (∀ j ∈ (scopeOf pageTwoInputs imgBySrc).filter
          (captchaInputSelectors.get ⟨0, by decide⟩),
        distSq imgBySrc i ≤ distSq imgBySrc j) ∧
      (∀ j ∈ pre, distSq imgBySrc i < distSq imgBySrc j) :=
  nearest_input_selected pageTwoInputs imgBySrc 0 (by decide) rfl (by decide)
    (fun j hj => absurd hj (Nat.not_lt_zero j))

/-- C2: the detector tries the image selectors in the fixed source order
(title, src, alt, id, class, aria-label, each a case-sensitive substring
match on "captcha"); if the selector at index `k` yields a match and no
earlier selector yields any, the element found is exactly that selector's
match, which is the first matching element in document order. -/
theorem image_selector_priority (doc : Doc) (k : Nat)
    (hk : k < captchaImageSelectors.length) (e : Elem)
    (hS : querySelector doc (captchaImageSelectors.get ⟨k, hk⟩) = some e)
    (hprev : ∀ j (hj : j < k),
      querySelector doc (captchaImageSelectors.get ⟨j, Nat.lt_trans hj hk⟩) = none) :
    findCaptchaImage doc = some e ∧
    ∃ pre post, doc.elems = pre ++ e :: post ∧
      captchaImageSelectors.get ⟨k, hk⟩ e = true ∧
      ∀ j ∈ pre, captchaImageSelectors.get ⟨k, hk⟩ j = false :=
  ⟨imageLoop_at doc captchaImageSelectors k hk hprev e hS,
   head_filter _ doc.elems e hS⟩

/-- Witness for C2: a concrete page whose image matches the src selector
(index 1) and nothing matches the title selector (index 0). -/
theorem image_selector_priority_witness :
    findCaptchaImage pageTwoInputs = some imgBySrc ∧
    ∃ pre post, pageTwoInputs.elems = pre ++ imgBySrc :: post ∧
      captchaImageSelectors.get ⟨1, by decide⟩ imgBySrc = true ∧
      ∀ j ∈ pre, captchaImageSelectors.get ⟨1, by decide⟩ j = false :=
  image_selector_priority pageTwoInputs 1 (by decide) imgBySrc rfl
    (fun j hj => by
      have h0 : j = 0 := Nat.lt_one_iff.mp hj
      subst h0
      rfl)

/-- C9: the detector is a total function — it yields a candidate or an
explicit not-found `none`, never an exception — and when no image matches
any image selector it yields `none`, for every document whatsoever, in
particular irrespective of what input elements the page holds. -/
theorem detector_never_throws (doc : Doc) :
    (findCaptcha doc = none ∨ ∃ c, findCaptcha doc = some c) ∧
    ((∀ sel ∈ captchaImageSelectors, querySelector doc sel = none) →
      findCaptcha doc = none) := by
  constructor
  · cases h : findCaptcha doc with
    | none => exact Or.inl rfl
    | some c => exact Or.inr ⟨c, rfl⟩
  · intro hnone
    have himg : findCaptchaImage doc = none :=
      imageLoop_none doc captchaImageSelectors hnone
    simp only [findCaptcha, himg]

/-- Witness for C9: a concrete page with an input but no captcha image is
reported not-found. -/
theorem detector_never_throws_witness : findCaptcha pageNoImage = none :=
  (detector_never_throws pageNoImage).2 (by decide)

/-- C3 counterexample: with the 2D context available and `toDataURL`
throwing a cross-origin taint error, a fallback fetch that returns a
non-200 response (here 404) does NOT make the extraction fail — the code
never inspects the response status and happily encodes the error body as
a data URL. -/
theorem fallback_non200_counterexample :
    isExtractErr (getImageDataUrl
      ⟨true, CanvasResult.taintError, FetchResult.response 404 "oops", false⟩)
      = false := rfl

/-- C3 amended: when the 2D context is available and `toDataURL` throws a
cross-origin taint error, the extraction error propagates exactly when the
fallback fetch itself rejects (network error) or the blob read fails; the
response's HTTP status is never consulted. -/
theorem fallback_failure_iff (env : ExtractEnv)
    (hctx : env.ctxAvailable = true)
    (htaint : env.canvas = CanvasResult.taintError) :
    isExtractErr (getImageDataUrl env) = true ↔
      ((∃ m, env.fetchImg = FetchResult.networkError m) ∨
        env.readerFails = true) := by
  obtain ⟨ctx, canvas, fetchImg, readerFails⟩ := env
  simp only at hctx htaint
  subst hctx htaint
  cases fetchImg with
  | networkError m =>
    simp [getImageDataUrl, isExtractErr]
  | response st body =>
    cases readerFails <;> simp [getImageDataUrl, isExtractErr]

/-- Witness for the amended C3 at a concrete environment: a network error
during the fallback fetch does propagate. -/
theorem fallback_failure_iff_witness :
    isExtractErr (getImageDataUrl
      ⟨true, CanvasResult.taintError, FetchResult.networkError "net down", false⟩)
      = true :=
  (fallback_failure_iff
      ⟨true, CanvasResult.taintError, FetchResult.networkError "net down", false⟩
      rfl rfl).mpr (Or.inl ⟨"net down", rfl⟩)

/-- C4 counterexample: a 200 response whose JSON body has the field
`data` holding the empty string does NOT resolve to that value — the JS
truthiness check `!data.data` rejects it and `solveCaptcha` throws the
"no valid solution" error instead of returning `""` verbatim. -/
theorem empty_data_counterexample :
    (solveCaptcha DEFAULT_SOLVER_CONFIG
        (FetchOutcome.got true "OK" (BodyParse.json (some "") none))).1
      = SolveResult.err "Captcha solver API did not return a valid solution."
      := rfl

/-- C4 amended: for every success response whose JSON body carries a
non-empty `data` field, `solveCaptcha` resolves to that field's value
verbatim — no trimming, normalization, or validation of character
content. -/
theorem data_field_verbatim (config : SolverConfig) (statusText s : String)
    (m : Option String) (hurl : config.apiUrl ≠ "") (hs : s ≠ "") :
    (solveCaptcha config
        (FetchOutcome.got true statusText (BodyParse.json (some s) m))).1
      = SolveResult.ok s := by
  simp [solveCaptcha, hurl, hs]

/-- Witness for the amended C4: a 200 response with body data "AB12"
resolves to exactly "AB12". -/
theorem data_field_verbatim_witness :
    (solveCaptcha DEFAULT_SOLVER_CONFIG
        (FetchOutcome.got true "OK" (BodyParse.json (some "AB12") none))).1
      = SolveResult.ok "AB12" :=
  data_field_verbatim DEFAULT_SOLVER_CONFIG "OK" "AB12" none
    (by decide) (by decide)

/-- C5: on a non-success response, `solveCaptcha` rejects with an error
whose message contains the body's parsed `message` field; when the body
fails to parse as JSON, the error message contains the response's status
line text instead. -/
theorem non_success_error_message (config : SolverConfig)
    (statusText : String) (body : BodyParse) (hurl : config.apiUrl ≠ "") :
    (∀ d m, body = BodyParse.json d (some m) →
      ∃ e, (solveCaptcha config (FetchOutcome.got false statusText body)).1
          = SolveResult.err e ∧ strContains e m = true) ∧
    (body = BodyParse.parseError →
      ∃ e, (solveCaptcha config (FetchOutcome.got false statusText body)).1
          = SolveResult.err e ∧ strContains e statusText = true) := by
  constructor
  · intro d m hbody
    subst hbody
    rw [solveCaptcha_not_ok config statusText _ hurl]
    by_cases hm : m = ""
    · subst hm
      exact ⟨"Captcha solver API error: " ++ "Unknown error",
        by simp [errorMessageOf], strContains_empty _⟩
    · exact ⟨"Captcha solver API error: " ++ m,
        by simp [errorMessageOf, hm], strContains_append_self _ _⟩
  · intro hbody
    subst hbody
    rw [solveCaptcha_not_ok config statusText _ hurl]
    by_cases hst : statusText = ""
    · subst hst
      exact ⟨"Captcha solver API error: " ++ "Unknown error",
        by simp [errorMessageOf], strContains_empty _⟩
    · exact ⟨"Captcha solver API error: " ++ statusText,
        by simp [errorMessageOf, hst], strContains_append_self _ _⟩

/-- Witness for C5: a 500-style response with body message "bad image"
rejects with an error containing "bad image". -/
theorem non_success_error_message_witness :
    ∃ e, (solveCaptcha DEFAULT_SOLVER_CONFIG
        (FetchOutcome.got false "Internal Server Error"
          (BodyParse.json none (some "bad image")))).1
        = SolveResult.err e ∧ strContains e "bad image" = true :=
  (non_success_error_message DEFAULT_SOLVER_CONFIG "Internal Server Error"
      (BodyParse.json none (some "bad image")) (by decide)).1
    none "bad image" rfl

/-- C6: a success response whose parsed JSON body lacks the `data` field
makes `solveCaptcha` reject with the "no valid solution" error instead of
returning a value. -/
theorem missing_data_error (config : SolverConfig) (statusText : String)
    (m : Option String) (hurl : config.apiUrl ≠ "") :
    (solveCaptcha config
        (FetchOutcome.got true statusText (BodyParse.json none m))).1
      = SolveResult.err "Captcha solver API did not return a valid solution."
      := by
  simp [solveCaptcha, hurl]

/-- Witness for C6: a 200 response with the empty JSON object body. -/
theorem missing_data_error_witness :
    (solveCaptcha DEFAULT_SOLVER_CONFIG
        (FetchOutcome.got true "OK" (BodyParse.json none none))).1
      = SolveResult.err "Captcha solver API did not return a valid solution."
      :=
  missing_data_error DEFAULT_SOLVER_CONFIG "OK" none (by decide)

/-- C7: with an empty endpoint URL, `solveCaptcha` rejects with the
configuration error and the HTTP request is never issued (the network-call
flag is false), whatever the network would have answered. -/
theorem empty_url_no_network (config : SolverConfig) (net : FetchOutcome)
    (h : config.apiUrl = "") :
    solveCaptcha config net
      = (SolveResult.err "Captcha solver API URL is not configured.", false)
      := by
  unfold solveCaptcha
  rw [if_pos h]

/-- Witness for C7 at a concrete configuration and network oracle. -/
theorem empty_url_no_network_witness :
    solveCaptcha ⟨"", "some-key"⟩ (FetchOutcome.networkError "unreachable")
      = (SolveResult.err "Captcha solver API URL is not configured.", false)
      :=
  empty_url_no_network ⟨"", "some-key"⟩
    (FetchOutcome.networkError "unreachable") rfl

/-- C8: whenever detection found a candidate, extraction produced a data
URL, and the solve path resolved with a solved string, the detected input
element's value is set to exactly that string and an `input` event
followed by a `change` event are dispatched on it.  (A resolved
`solveCaptcha` is automatically non-empty, so the content script's
truthiness guard always passes here.) -/
theorem solved_string_filled (doc : Doc) (env : ExtractEnv)
    (config : SolverConfig) (net : FetchOutcome) (c : Candidate)
    (u s : String)
    (hfind : findCaptcha doc = some c)
    (hext : getImageDataUrl env = ExtractResult.ok u)
    (hsolve : (solveCaptcha config net).1 = SolveResult.ok s) :
    runCaptchaBreaker doc env config net
      = some (c.inputElem, ⟨some s, ["input", "change"]⟩) := by
  have hs : s ≠ "" := solveCaptcha_ok_ne_empty config net s hsolve
  simp only [runCaptchaBreaker, hfind, hext, hsolve, backgroundReply,
    handleSolveResponse]
  rw [if_neg hs]

/-- Witness for C8: the full pipeline on a concrete page, environment,
configuration and network writes "AB12" into the near input and
dispatches both events. -/
theorem solved_string_filled_witness :
    runCaptchaBreaker pageTwoInputs extractEnvOk DEFAULT_SOLVER_CONFIG netOkAB12
      = some (inputNear, ⟨some "AB12", ["input", "change"]⟩) :=
  solved_string_filled pageTwoInputs extractEnvOk DEFAULT_SOLVER_CONFIG
    netOkAB12 ⟨imgBySrc, inputNear⟩ "data:image/png;base64,AAA" "AB12"
    rfl rfl rfl

/-- C10: a reply that does not carry a truthy solution — a missing reply,
an error reply, or a solution that is the empty string — leaves the
detected input's value unchanged and dispatches no events on it. -/
theorem untruthy_reply_no_effect (response : Option Reply)
    (h : ∀ r, response = some r → r.solution = none ∨ r.solution = some "") :
    handleSolveResponse response = ⟨none, []⟩ := by
  cases response with
  | none => rfl
  | some r =>
    rcases h r rfl with hr | hr <;> simp [handleSolveResponse, hr]

/-- Witness for C10 at a concrete error reply. -/
theorem untruthy_reply_no_effect_witness :
    handleSolveResponse (some ⟨none, some "boom"⟩) = ⟨none, []⟩ :=
  untruthy_reply_no_effect (some ⟨none, some "boom"⟩)
    (fun r hr => Or.inl (by cases hr; rfl))
